import Mathlib

/-!
Verification of the bandita DVM (`dvm/dvm.go`): a nostr "data vending
machine" that answers kind-42069 job requests (tweet IDs) with kind-1
responses carrying the fetched tweet as JSON, and the companion client
`RequestTweet` that publishes a request and waits for the correlated
response.

The embedding below translates the relevant parts of `dvm/dvm.go`:
  * `publishRetryAux` / `publishWithRetry` — the publish retry loops of
    `Dvm.Run` and `DvmClient.RequestTweet` (`maxRetries = 3`, 500 ms
    sleep, reconnect-on-`ConnectionError` before the publish attempt);
  * `processEvent` / `waitForResponse` — the requester's wait loop with
    the `e`-tag correlation test and the lenient same-author fallback;
  * `handleEvent` / `runLoop` — the responder's per-event handling
    (fetch, marshal, sign, publish with retry) and its select loop;
  * `heartbeatTick` — one tick of `runHeartbeat`;
  * `stop` — `Dvm.Stop` with its `sync.Once`-guarded `close(d.done)`.

External collaborators (the relay transport, `scraper.GetTweet`,
`json.Marshal`/`json.Unmarshal`, event signing) are modelled as oracle
parameters: the code only observes their success/failure and returned
values, never their internals.  Machine-level details (websockets, real
time) are abstracted into the oracles' answers; wall-clock instants are
`Int` Unix seconds.
-/

namespace Bandita

/-- The tweet record as the protocol observes it: the two fields of
`twitterscraper.Tweet` that `dvm.go` reads (`Username`, `Text`). -/
structure Tweet where
  username : String
  text : String
deriving DecidableEq, Repr

/-- A nostr event (`nostr.Event`): identifier (assigned by signing),
author public key, creation timestamp (Unix seconds), kind, tags and
content. -/
structure NEvent where
  id : String
  pubkey : String
  createdAt : Int
  kind : Nat
  tags : List (List String)
  content : String
deriving DecidableEq, Repr

/-- A relay connection handle (`*nostr.Relay`).  `id` distinguishes
distinct connections (a reconnect produces a handle with a different
`id`); `connectionError` models `relay.ConnectionError != nil`. -/
structure Conn where
  id : Nat
  connectionError : Bool
deriving DecidableEq, Repr

/-- The transport errors a publish path can surface, labelled by the
attempt index on which they occurred: a failed `nostr.RelayConnect`
during reconnection, or a failed `relay.Publish`. -/
inductive PubErr where
  | reconnectErr (attempt : Nat)
  | publishErr (attempt : Nat)
deriving DecidableEq, Repr

/-- Observable transport actions, used to state ordering properties
(subscribe before publish, reconnect before retry). -/
inductive Act where
  | subscribeAct (connId : Nat)
  | publishAttempt (connId : Nat)
  | reconnectTry (attempt : Nat) (ok : Bool)
  | sleepAct (ms : Nat)
deriving DecidableEq, Repr

/-- `maxRetries := 3` in both `Dvm.Run` and `RequestTweet`. -/
def maxRetries : Nat := 3

/-- The fixed `time.Sleep(500 * time.Millisecond)` between failed
attempts, in milliseconds. -/
def retrySleepMs : Nat := 500

/-- Everything a publish-retry loop run produces: the final connection
handle (the loops assign `d.relay = newRelay` / `c.relay = newRelay` on
reconnect), whether some attempt succeeded, the last error recorded
(`publishErr` in `RequestTweet`; `Dvm.Run` ignores it), the number of
loop iterations used, the sleeps performed and the action trace. -/
structure RetryOut where
  conn : Conn
  success : Bool
  lastErr : Option PubErr
  attemptsUsed : Nat
  sleeps : List Nat
  acts : List Act
deriving Repr

/-- The shared shape of the two publish retry loops
(`dvm.go`, `Dvm.Run` lines 353–383 and `RequestTweet` lines 515–548):
for each attempt, if the current connection reports an error, reconnect
first (on reconnect failure sleep 500 ms and use up the attempt);
otherwise, or after a successful reconnect, attempt the publish; a
failed publish sleeps 500 ms and continues, a successful one breaks.
`reconnect i` is the outcome of `nostr.RelayConnect` on attempt `i`,
`pubOk i` the outcome of `relay.Publish` on attempt `i`. -/
def publishRetryAux (reconnect : Nat → Option Conn) (pubOk : Nat → Bool) :
    Conn → Nat → Nat → Option PubErr → RetryOut
  | c, _, 0, err => ⟨c, false, err, 0, [], []⟩
  | c, i, rem + 1, _ =>
    if c.connectionError then
      match reconnect i with
      | none =>
        let r := publishRetryAux reconnect pubOk c (i + 1) rem (some (.reconnectErr i))
        ⟨r.conn, r.success, r.lastErr, r.attemptsUsed + 1, retrySleepMs :: r.sleeps,
          .reconnectTry i false :: .sleepAct retrySleepMs :: r.acts⟩
      | some c2 =>
        if pubOk i then
          ⟨c2, true, none, 1, [], [.reconnectTry i true, .publishAttempt c2.id]⟩
        else
          let r := publishRetryAux reconnect pubOk c2 (i + 1) rem (some (.publishErr i))
          ⟨r.conn, r.success, r.lastErr, r.attemptsUsed + 1, retrySleepMs :: r.sleeps,
            .reconnectTry i true :: .publishAttempt c2.id :: .sleepAct retrySleepMs :: r.acts⟩
    else
      if pubOk i then ⟨c, true, none, 1, [], [.publishAttempt c.id]⟩
      else
        let r := publishRetryAux reconnect pubOk c (i + 1) rem (some (.publishErr i))
        ⟨r.conn, r.success, r.lastErr, r.attemptsUsed + 1, retrySleepMs :: r.sleeps,
          .publishAttempt c.id :: .sleepAct retrySleepMs :: r.acts⟩

/-- A full run of a publish retry loop, starting at attempt 0 with the
full `maxRetries` budget and no recorded error (`var publishErr error`). -/
def publishWithRetry (reconnect : Nat → Option Conn) (pubOk : Nat → Bool) (c : Conn) :
    RetryOut :=
  publishRetryAux reconnect pubOk c 0 maxRetries none

/-- One tag test from the requester's match loop
(`len(tag) >= 2 && tag[0] == "e" && tag[1] == evt.ID`,
`RequestTweet` line 578). -/
def tagReferencesRequest (requestID : String) (tag : List String) : Bool :=
  match tag with
  | k :: v :: _ => k == "e" && v == requestID
  | _ => false

/-- The primary correlation rule: some tag of the event is an `e` tag
carrying the outstanding request's identifier (the `for _, tag` loop of
`RequestTweet`, lines 577–583). -/
def hasMatchingETag (requestID : String) (e : NEvent) : Bool :=
  e.tags.any (tagReferencesRequest requestID)

/-- `isOurResponse` as computed by `RequestTweet` (lines 573–590): the
tag rule, or the fallback "from the right DVM" rule
(`!isOurResponse && e.PubKey == dvmPubKey`). -/
def isOurResponse (dvmPubKey requestID : String) (e : NEvent) : Bool :=
  hasMatchingETag requestID e || e.pubkey == dvmPubKey

/-- Outcome of examining one delivered event in the wait loop. -/
inductive WaitStep where
  | accept (t : Tweet)
  | keepWaiting
deriving DecidableEq, Repr

/-- One iteration of `RequestTweet`'s wait loop body (lines 566–613) on
a delivered event: non-kind-1 events are ignored; for a matching event
the payload is decoded (`json.Unmarshal`, modelled by the `decode`
oracle) — a decode failure or an empty `Text` field `continue`s the
loop, otherwise the tweet is returned. -/
def processEvent (decode : String → Option Tweet) (dvmPubKey requestID : String)
    (e : NEvent) : WaitStep :=
  if e.kind == 1 then
    if isOurResponse dvmPubKey requestID e then
      match decode e.content with
      | none => .keepWaiting
      | some tweet => if tweet.text == "" then .keepWaiting else .accept tweet
    else .keepWaiting
  else .keepWaiting

/-- `RequestTweet`'s wait loop over the finite list of events the
subscription delivers before the context deadline; `none` is the
`ctx.Done()` timeout outcome. -/
def waitForResponse (decode : String → Option Tweet) (dvmPubKey requestID : String) :
    List NEvent → Option Tweet
  | [] => none
  | e :: rest =>
    match processEvent decode dvmPubKey requestID e with
    | .accept t => some t
    | .keepWaiting => waitForResponse decode dvmPubKey requestID rest

/-- The subscription `RequestTweet` opens (lines 497–503): the
connection it was opened on, and its filter
`{Kinds: [1], Authors: [dvmPubKey], Since: since}`. -/
structure Subscription where
  connId : Nat
  kinds : List Nat
  authors : List String
  since : Int
deriving DecidableEq, Repr

/-- The possible outcomes of `RequestTweet`. -/
inductive ReqResult where
  | okTweet (t : Tweet)
  | errSign
  | errSubscribe
  | errPublish (e : PubErr)
  | timeout
deriving DecidableEq, Repr

/-- Oracles for one `RequestTweet` call: the event id assigned by
signing the request, the sign and subscribe outcomes, the reconnect and
publish outcomes per attempt, the payload decoder, the events the
subscription delivers before the deadline, and the current time. -/
structure ClientEnv where
  reqId : String
  signOk : Bool
  subscribeOk : Bool
  reconnect : Nat → Option Conn
  pubOk : Nat → Bool
  decode : String → Option Tweet
  events : List NEvent
  now : Int

/-- What a `RequestTweet` call produced: the signed request event, the
subscription it opened, the client's final relay handle, the transport
action trace, and the returned result. -/
structure ReqOut where
  requestEvt : Option NEvent
  sub : Option Subscription
  conn : Conn
  acts : List Act
  result : ReqResult

/-- The subscription's time slack:
`since := time.Now().Add(-1 * time.Minute)` (line 494). -/
def clientSinceSlackSecs : Int := 60

/-- `DvmClient.RequestTweet` (lines 473–619): build and sign the
kind-42069 request; subscribe (on the current connection) to kind-1
events from `dvmPubKey` since one minute ago; publish the request with
the retry loop; if `publishErr != nil` return it; otherwise run the
wait loop.  The two `time.Now()` readings (request `CreatedAt` and the
subscription bound) are modelled as the single instant `env.now`. -/
def requestTweet (env : ClientEnv) (clientPk dvmPubKey tweetID : String) (c0 : Conn) :
    ReqOut :=
  let evt : NEvent := ⟨env.reqId, clientPk, env.now, 42069, [], tweetID⟩
  if ¬ env.signOk then ⟨none, none, c0, [], .errSign⟩
  else
    let s : Subscription := ⟨c0.id, [1], [dvmPubKey], env.now - clientSinceSlackSecs⟩
    if ¬ env.subscribeOk then ⟨some evt, none, c0, [.subscribeAct c0.id], .errSubscribe⟩
    else
      let r := publishWithRetry env.reconnect env.pubOk c0
      match r.lastErr with
      | some e => ⟨some evt, some s, r.conn, .subscribeAct c0.id :: r.acts, .errPublish e⟩
      | none =>
        match waitForResponse env.decode dvmPubKey evt.id env.events with
        | some t => ⟨some evt, some s, r.conn, .subscribeAct c0.id :: r.acts, .okTweet t⟩
        | none => ⟨some evt, some s, r.conn, .subscribeAct c0.id :: r.acts, .timeout⟩

/-- The job response `Dvm.Run` constructs (lines 335–344): author is
the DVM's public key, kind 1, exactly the tags
`[["e", evt.ID], ["p", evt.PubKey]]`, content the marshalled tweet.
The `id` field is assigned by signing and is opaque here. -/
def buildResponse (dvmPk : String) (now : Int) (reqEvt : NEvent) (tweetJSON : String) :
    NEvent :=
  ⟨"", dvmPk, now, 1, [["e", reqEvt.id], ["p", reqEvt.pubkey]], tweetJSON⟩

/-- Oracles for the responder: `scraper.GetTweet` (`fetch`),
`json.Marshal` (`marshal`), the sign outcome, and the reconnect/publish
outcomes per retry attempt. -/
structure DvmEnv where
  fetch : String → Option Tweet
  marshal : Tweet → Option String
  signOk : Bool
  reconnect : Nat → Option Conn
  pubOk : Nat → Bool
  now : Int

/-- What handling one delivered event produced: how many times the
fetch collaborator was invoked, the events actually delivered to the
relay, the transport action trace, and the responder's relay handle
afterwards. -/
structure HandleOut where
  fetchCalls : Nat
  published : List NEvent
  acts : List Act
  conn : Conn

/-- The body of `Dvm.Run`'s `case evt := <-sub.Events` branch
(lines 310–384): for a kind-42069 event, fetch the tweet (failure:
log and `continue`), marshal it (failure: `continue`), build and sign
the response (failure: `continue`), then publish it with the retry
loop; the response reaches the relay only if some attempt succeeds. -/
def handleEvent (env : DvmEnv) (dvmPk : String) (c : Conn) (evt : NEvent) : HandleOut :=
  if evt.kind == 42069 then
    match env.fetch evt.content with
    | none => ⟨1, [], [], c⟩
    | some tweet =>
      match env.marshal tweet with
      | none => ⟨1, [], [], c⟩
      | some tweetJSON =>
        if env.signOk then
          let resp := buildResponse dvmPk env.now evt tweetJSON
          let r := publishWithRetry env.reconnect env.pubOk c
          ⟨1, if r.success then [resp] else [], r.acts, r.conn⟩
        else ⟨1, [], [], c⟩
  else ⟨0, [], [], c⟩

/-- A message consumed by `Dvm.Run`'s `select`: either a delivered
subscription event or the closed `d.done` channel becoming readable. -/
inductive LoopMsg where
  | ev (e : NEvent)
  | done
deriving DecidableEq, Repr

/-- What a run of the responder loop produced: all events published,
whether `Run` returned (it returns `nil` only via `d.done`), whether
the deferred `sub.Unsub()` ran, and the final relay handle. -/
structure RunOut where
  published : List NEvent
  returned : Bool
  unsubbed : Bool
  conn : Conn

/-- `Dvm.Run`'s event loop (lines 308–389) over a finite schedule of
select outcomes.  An empty schedule means the loop is still blocked;
`done` makes `Run` return `nil` after its deferred unsubscribe. -/
def runLoop (env : DvmEnv) (dvmPk : String) : Conn → List LoopMsg → RunOut
  | c, [] => ⟨[], false, false, c⟩
  | c, .done :: _ => ⟨[], true, true, c⟩
  | c, .ev e :: rest =>
    let h := handleEvent env dvmPk c e
    let r := runLoop env dvmPk h.conn rest
    ⟨h.published ++ r.published, r.returned, r.unsubbed, r.conn⟩

/-- What one heartbeat tick produced: the ping event it prepared (if
any), whether signing it succeeded, the events it published, and the
relay handle afterwards. -/
structure TickOut where
  constructedPing : Option NEvent
  signedOk : Bool
  published : List NEvent
  conn : Conn

/-- One `ticker.C` tick of `runHeartbeat` (lines 399–427): if the
connection reports an error, reconnect (replacing `d.relay`) and do
nothing else; otherwise build and sign the kind-1 ping event with tag
`["client", "bandita-dvm-heartbeat"]` — and never publish it (the code
comments that the event is only prepared). -/
def heartbeatTick (signOk : Bool) (reconnect : Option Conn) (dvmPk : String)
    (now : Int) (c : Conn) : TickOut :=
  if c.connectionError then
    match reconnect with
    | none => ⟨none, false, [], c⟩
    | some c2 => ⟨none, false, [], c2⟩
  else
    ⟨some ⟨"", dvmPk, now, 1, [["client", "bandita-dvm-heartbeat"]], ""⟩, signOk, [], c⟩

/-- The shutdown-relevant state of a `Dvm`: whether the embedded
`sync.Once` has fired, whether `d.done` is closed, how many times
`close(d.done)` executed, and whether a double-close panic occurred. -/
structure DvmState where
  onceDone : Bool
  doneClosed : Bool
  closeCount : Nat
  panicked : Bool
deriving DecidableEq, Repr

/-- A freshly constructed `Dvm` (`done: make(chan struct{})`). -/
def initDvmState : DvmState := ⟨false, false, 0, false⟩

/-- `close(d.done)`: closing an already-closed Go channel panics. -/
def closeDone (s : DvmState) : DvmState :=
  if s.doneClosed then { s with panicked := true }
  else { s with doneClosed := true, closeCount := s.closeCount + 1 }

/-- `Dvm.Stop` (lines 439–443): `d.Do(func() { close(d.done) })`.
`sync.Once.Do` runs its argument only the first time and is atomic, so
any interleaving of concurrent `Stop` calls is a sequence of these
atomic steps. -/
def stop (s : DvmState) : DvmState :=
  if s.onceDone then s else closeDone { s with onceDone := true }

/-- One access to the shared `d.relay` field, as written in the source:
which function performs it, the source line, whether it is a write, and
whether any mutex/atomic guards it (none exists in `dvm.go`). -/
structure RelayAccess where
  task : String
  line : Nat
  isWrite : Bool
  guarded : Bool
deriving DecidableEq, Repr

/-- Every access to `d.relay` reachable while `Run`'s event loop and
the `runHeartbeat` goroutine run concurrently, transcribed from
`dvm.go`: reads of `d.relay.ConnectionError` / `d.relay.URL` /
`d.relay.Publish` and the two `d.relay = newRelay` writes.  The `Dvm`
struct has no mutex and none of these uses `sync/atomic`, so every
`guarded` flag is `false`. -/
def dvmRelayAccesses : List RelayAccess :=
  [⟨"Run", 357, false, false⟩,
   ⟨"Run", 361, false, false⟩,
   ⟨"Run", 369, true, false⟩,
   ⟨"Run", 374, false, false⟩,
   ⟨"runHeartbeat", 401, false, false⟩,
   ⟨"runHeartbeat", 403, false, false⟩,
   ⟨"runHeartbeat", 408, true, false⟩]

/-- A concrete decoder standing in for `json.Unmarshal` on three fixed
payload strings, used to instantiate the oracle parameters in closed
statements: one payload decodes to a full tweet, one to a tweet with an
empty `Text` field, and everything else fails to decode. -/
def decodeDemo (s : String) : Option Tweet :=
  if s = "good" then some ⟨"halfin", "Running bitcoin"⟩
  else if s = "empty" then some ⟨"halfin", ""⟩
  else none

/-- The event-acceptance test of the fallback branch, used to state the
leniency property: a kind-1 event from the expected responder whose
payload decodes into a tweet with non-empty text. -/
def acceptsFallback (decode : String → Option Tweet) (dvm : String) (e : NEvent) : Bool :=
  e.kind == 1 && e.pubkey == dvm &&
    match decode e.content with
    | none => false
    | some t => !(t.text == "")

/-- A demo responder environment for closed statements: fetch and
marshal always succeed, signing succeeds, the connection is healthy and
the first publish attempt succeeds. -/
def dvmEnvW : DvmEnv :=
  ⟨fun _ => some ⟨"halfin", "Running bitcoin"⟩, fun _ => some "good", true,
   fun _ => none, fun _ => true, 0⟩

/-- A demo responder environment whose fetch collaborator always
fails. -/
def dvmEnvFail : DvmEnv :=
  ⟨fun _ => none, fun _ => some "good", true, fun _ => none, fun _ => true, 0⟩

/-- A demo job request event. -/
def reqEvtW : NEvent := ⟨"reqid", "clientpk", 0, 42069, [], "1110302988"⟩

/-- A kind-1 event from the expected responder (`"dvmpk"`) whose only
`e` tag references a different request `"reqB"`, with a well-formed
payload: a response intended for request B. -/
def evB : NEvent := ⟨"respB", "dvmpk", 0, 1, [["e", "reqB"]], "good"⟩

/-- A kind-1 event from the expected responder, no tags, payload that
fails to decode. -/
def evBad : NEvent := ⟨"r1", "dvmpk", 0, 1, [], "junk"⟩

/-- A kind-1 event from the expected responder, no tags, payload that
decodes to a tweet with an empty text field. -/
def evEmpty : NEvent := ⟨"r2", "dvmpk", 0, 1, [], "empty"⟩

/-- A kind-1 event from the expected responder, no tags, well-formed
payload. -/
def evGood : NEvent := ⟨"r3", "dvmpk", 0, 1, [], "good"⟩

/-- Recognizer for subscription actions in a transport trace. -/
def Act.isSubscribe : Act → Bool
  | .subscribeAct _ => true
  | _ => false

/-- Recognizer for publish attempts in a transport trace. -/
def Act.isPublish : Act → Bool
  | .publishAttempt _ => true
  | _ => false

/-- A client environment whose transport accepts the subscription but
fails every publish attempt (and never reports a broken connection). -/
def cenvFail : ClientEnv :=
  ⟨"reqA", true, true, fun _ => none, fun _ => false, decodeDemo, [], 100⟩

/-- A client environment where everything succeeds and no event
arrives before the deadline. -/
def cenvW : ClientEnv :=
  ⟨"reqA", true, true, fun _ => none, fun _ => true, decodeDemo, [evGood], 100⟩

/-- A client environment whose first reconnect attempt yields the fresh
healthy connection 1, with publishing then succeeding and no event
arriving before the deadline. -/
def cenvReconn : ClientEnv :=
  ⟨"reqA", true, true, fun _ => some ⟨1, false⟩, fun _ => true, decodeDemo, [], 100⟩

/-! ### Helper lemmas about the publish retry loop -/

theorem retryAux_attempts_le (reconnect : Nat → Option Conn) (pubOk : Nat → Bool) :
    ∀ rem c i err, (publishRetryAux reconnect pubOk c i rem err).attemptsUsed ≤ rem := by
  intro rem
  induction rem with
  | zero => intro c i err; simp [publishRetryAux]
  | succ k ih =>
    intro c i err
    rcases hb : c.connectionError with _ | _
    · rcases hp : pubOk i with _ | _
      · simpa [publishRetryAux, hb, hp] using ih c (i + 1) (some (.publishErr i))
      · simp [publishRetryAux, hb, hp]
    · rcases hr : reconnect i with _ | c2
      · simpa [publishRetryAux, hb, hr] using ih c (i + 1) (some (.reconnectErr i))
      · rcases hp : pubOk i with _ | _
        · simpa [publishRetryAux, hb, hr, hp] using ih c2 (i + 1) (some (.publishErr i))
        · simp [publishRetryAux, hb, hr, hp]

theorem retryAux_sleeps (reconnect : Nat → Option Conn) (pubOk : Nat → Bool) :
    ∀ rem c i err s, s ∈ (publishRetryAux reconnect pubOk c i rem err).sleeps →
      s = retrySleepMs := by
  intro rem
  induction rem with
  | zero => intro c i err s hs; simp [publishRetryAux] at hs
  | succ k ih =>
    intro c i err s hs
    rcases hb : c.connectionError with _ | _
    · rcases hp : pubOk i with _ | _
      · simp only [publishRetryAux, hb, hp, Bool.false_eq_true, if_false,
          List.mem_cons] at hs
        rcases hs with h | h
        · exact h
        · exact ih c (i + 1) (some (.publishErr i)) s h
      · simp [publishRetryAux, hb, hp] at hs
    · rcases hr : reconnect i with _ | c2
      · simp only [publishRetryAux, hb, hr, if_true, List.mem_cons] at hs
        rcases hs with h | h
        · exact h
        · exact ih c (i + 1) (some (.reconnectErr i)) s h
      · rcases hp : pubOk i with _ | _
        · simp only [publishRetryAux, hb, hr, hp, Bool.false_eq_true, if_true, if_false,
            List.mem_cons] at hs
          rcases hs with h | h
          · exact h
          · exact ih c2 (i + 1) (some (.publishErr i)) s h
        · simp [publishRetryAux, hb, hr, hp] at hs

theorem retryAux_err_of_fail (reconnect : Nat → Option Conn) (pubOk : Nat → Bool) :
    ∀ rem c i err, err.isSome = true →
      (publishRetryAux reconnect pubOk c i rem err).success = false →
      (publishRetryAux reconnect pubOk c i rem err).lastErr.isSome = true := by
  intro rem
  induction rem with
  | zero => intro c i err he _; simpa [publishRetryAux] using he
  | succ k ih =>
    intro c i err he hf
    rcases hb : c.connectionError with _ | _
    · rcases hp : pubOk i with _ | _
      · simp only [publishRetryAux, hb, hp, Bool.false_eq_true, if_false] at hf ⊢
        exact ih c (i + 1) (some (.publishErr i)) rfl hf
      · simp [publishRetryAux, hb, hp] at hf
    · rcases hr : reconnect i with _ | c2
      · simp only [publishRetryAux, hb, hr, if_true] at hf ⊢
        exact ih c (i + 1) (some (.reconnectErr i)) rfl hf
      · rcases hp : pubOk i with _ | _
        · simp only [publishRetryAux, hb, hr, hp, Bool.false_eq_true, if_true,
            if_false] at hf ⊢
          exact ih c2 (i + 1) (some (.publishErr i)) rfl hf
        · simp [publishRetryAux, hb, hr, hp] at hf

theorem retryAux_fail_err_top (reconnect : Nat → Option Conn) (pubOk : Nat → Bool)
    (rem : Nat) (c : Conn) (i : Nat) (err : Option PubErr)
    (hf : (publishRetryAux reconnect pubOk c i (rem + 1) err).success = false) :
    ((publishRetryAux reconnect pubOk c i (rem + 1) err).lastErr).isSome = true := by
  rcases hb : c.connectionError with _ | _
  · rcases hp : pubOk i with _ | _
    · simp only [publishRetryAux, hb, hp, Bool.false_eq_true, if_false] at hf ⊢
      exact retryAux_err_of_fail reconnect pubOk rem c (i + 1) (some (.publishErr i)) rfl hf
    · simp [publishRetryAux, hb, hp] at hf
  · rcases hr : reconnect i with _ | c2
    · simp only [publishRetryAux, hb, hr, if_true] at hf ⊢
      exact retryAux_err_of_fail reconnect pubOk rem c (i + 1) (some (.reconnectErr i)) rfl hf
    · rcases hp : pubOk i with _ | _
      · simp only [publishRetryAux, hb, hr, hp, Bool.false_eq_true, if_true,
          if_false] at hf ⊢
        exact retryAux_err_of_fail reconnect pubOk rem c2 (i + 1) (some (.publishErr i)) rfl hf
      · simp [publishRetryAux, hb, hr, hp] at hf

theorem publishWithRetry_fail_err (reconnect : Nat → Option Conn) (pubOk : Nat → Bool)
    (c : Conn) (hf : (publishWithRetry reconnect pubOk c).success = false) :
    ∃ e, (publishWithRetry reconnect pubOk c).lastErr = some e :=
  Option.isSome_iff_exists.mp (retryAux_fail_err_top reconnect pubOk 2 c 0 none hf)

/-! ### Helper lemmas about the responder loop -/

theorem handleEvent_published_shape (env : DvmEnv) (dvmPk : String) (c : Conn)
    (evt resp : NEvent) (hmem : resp ∈ (handleEvent env dvmPk c evt).published) :
    resp.pubkey = dvmPk ∧ resp.kind = 1 ∧
    resp.tags = [["e", evt.id], ["p", evt.pubkey]] ∧
    ∃ tw, env.fetch evt.content = some tw ∧ env.marshal tw = some resp.content := by
  by_cases hk : (evt.kind == 42069) = true
  · cases hf : env.fetch evt.content with
    | none => simp [handleEvent, hk, hf] at hmem
    | some tweet =>
      cases hm : env.marshal tweet with
      | none => simp [handleEvent, hk, hf, hm] at hmem
      | some js =>
        rcases hs : env.signOk with _ | _
        · simp [handleEvent, hk, hf, hm, hs] at hmem
        · by_cases hsuc : (publishWithRetry env.reconnect env.pubOk c).success = true
          · simp only [handleEvent, hk, hf, hm, hs, if_true, hsuc,
              List.mem_singleton] at hmem
            subst hmem
            exact ⟨rfl, rfl, rfl, tweet, rfl, hm⟩
          · simp [handleEvent, hk, hf, hm, hs, hsuc] at hmem
  · simp [handleEvent, hk] at hmem

theorem runLoop_published_shape (env : DvmEnv) (dvmPk : String) :
    ∀ msgs c resp, resp ∈ (runLoop env dvmPk c msgs).published →
      resp.pubkey = dvmPk ∧ resp.kind = 1 ∧
      ∃ a b, resp.tags = [["e", a], ["p", b]] := by
  intro msgs
  induction msgs with
  | nil => intro c resp h; simp [runLoop] at h
  | cons m rest ih =>
    intro c resp h
    cases m with
    | done => simp [runLoop] at h
    | ev e =>
      simp only [runLoop, List.mem_append] at h
      rcases h with h | h
      · obtain ⟨h1, h2, h3, -⟩ := handleEvent_published_shape env dvmPk c e resp h
        exact ⟨h1, h2, e.id, e.pubkey, by rw [h3]⟩
      · exact ih _ resp h

/-! ### Claim theorems -/

/-- Claim C3: for every job request event the responder successfully
processes, the published response event has author the responder's
public key, kind 1, exactly the two tags `["e", request id]` and
`["p", requester pubkey]`, and content the JSON serialization of the
fetched result (`Dvm.Run`, dvm.go lines 335–344). -/
theorem responseShape (env : DvmEnv) (dvmPk : String) (c : Conn)
    (evt resp : NEvent) (hmem : resp ∈ (handleEvent env dvmPk c evt).published) :
    resp.pubkey = dvmPk ∧ resp.kind = 1 ∧
    resp.tags = [["e", evt.id], ["p", evt.pubkey]] ∧
    ∃ tw, env.fetch evt.content = some tw ∧ env.marshal tw = some resp.content :=
  handleEvent_published_shape env dvmPk c evt resp hmem

/-- Witness for `responseShape`: the concrete response the demo
responder publishes for `reqEvtW` has exactly the claimed shape. -/
theorem responseShapeWitness :
    (buildResponse "dvmpk" 0 reqEvtW "good").pubkey = "dvmpk" ∧
    (buildResponse "dvmpk" 0 reqEvtW "good").kind = 1 ∧
    (buildResponse "dvmpk" 0 reqEvtW "good").tags =
      [["e", reqEvtW.id], ["p", reqEvtW.pubkey]] ∧
    ∃ tw, dvmEnvW.fetch reqEvtW.content = some tw ∧
      dvmEnvW.marshal tw = some (buildResponse "dvmpk" 0 reqEvtW "good").content :=
  responseShape dvmEnvW "dvmpk" ⟨0, false⟩ reqEvtW
    (buildResponse "dvmpk" 0 reqEvtW "good") (by decide)

/-- Claim C7: any number of `Dvm.Stop` calls — concurrent calls
serialize through the atomic `sync.Once.Do` — closes `d.done` exactly
once, never panics, and the closed channel makes `Run`'s loop return
cleanly, running its deferred `sub.Unsub()`. -/
theorem stopIdempotent (n : Nat) (hn : 1 ≤ n) :
    (stop^[n] initDvmState).closeCount = 1 ∧
    (stop^[n] initDvmState).doneClosed = true ∧
    (stop^[n] initDvmState).panicked = false ∧
    ∀ env pk c rest, (runLoop env pk c (LoopMsg.done :: rest)).returned = true ∧
      (runLoop env pk c (LoopMsg.done :: rest)).unsubbed = true := by
  have hit : ∀ m, 1 ≤ m → stop^[m] initDvmState = ⟨true, true, 1, false⟩ := by
    intro m
    induction m with
    | zero => intro h; exact absurd h (by decide)
    | succ k ih =>
      intro _
      rcases Nat.eq_zero_or_pos k with hk | hk
      · subst hk; decide
      · rw [Function.iterate_succ_apply', ih hk]; decide
  rw [hit n hn]
  exact ⟨rfl, rfl, rfl, fun env pk c rest => ⟨rfl, rfl⟩⟩

/-- Witness for `stopIdempotent` at three consecutive `Stop` calls. -/
theorem stopIdempotentWitness :
    (stop^[3] initDvmState).closeCount = 1 ∧
    (stop^[3] initDvmState).doneClosed = true ∧
    (stop^[3] initDvmState).panicked = false :=
  ⟨(stopIdempotent 3 (by decide)).1, (stopIdempotent 3 (by decide)).2.1,
   (stopIdempotent 3 (by decide)).2.2.1⟩

/-- Claim C9 is false of the code: the access list transcribed from
`dvm.go` contains an unguarded write of `d.relay` by the heartbeat
goroutine (line 408) and unguarded reads/writes by `Run`'s publish path
(lines 357–374); no access to the shared handle is synchronized, so a
publish attempt and a concurrent reconnect race on it. -/
theorem relayAccessesUnsynchronized :
    ¬ (∀ a ∈ dvmRelayAccesses, a.guarded = true) ∧
    (∃ a ∈ dvmRelayAccesses, a.task = "runHeartbeat" ∧ a.isWrite = true ∧
      a.guarded = false) ∧
    (∃ a ∈ dvmRelayAccesses, a.task = "Run" ∧ a.isWrite = false ∧
      a.guarded = false) := by
  refine ⟨?_, ?_, ?_⟩ <;> decide

/-- Claim C10 counterexample: on a tick where the connection reports an
error, `runHeartbeat` reconnects and constructs no ping at all, so the
claim's "constructs and signs a kind-1 ping event on each tick" fails
at this concrete tick (it still publishes nothing). -/
theorem heartbeatBrokenTickNoPing :
    (heartbeatTick true none "pk" 0 ⟨0, true⟩).constructedPing = none ∧
    (heartbeatTick true none "pk" 0 ⟨0, true⟩).published = [] := by
  exact ⟨rfl, rfl⟩

/-- Claim C10 as amended: the heartbeat publishes nothing on any tick;
on every tick where the connection is alive it constructs the kind-1
ping (signing it when the signer succeeds) without publishing it; and
consequently every event the responder loop publishes is a job
response (kind 1 with the `["e", …], ["p", …]` correlation tags), so
the requester's fallback is never triggered by a heartbeat event. -/
theorem heartbeatNeverPublishes :
    (∀ signOk rc pk now c, (heartbeatTick signOk rc pk now c).published = []) ∧
    (∀ signOk rc pk now c, c.connectionError = false →
       (heartbeatTick signOk rc pk now c).constructedPing =
         some ⟨"", pk, now, 1, [["client", "bandita-dvm-heartbeat"]], ""⟩ ∧
       (heartbeatTick signOk rc pk now c).signedOk = signOk) ∧
    (∀ env pk c msgs resp, resp ∈ (runLoop env pk c msgs).published →
       resp.pubkey = pk ∧ resp.kind = 1 ∧ ∃ a b, resp.tags = [["e", a], ["p", b]]) := by
  refine ⟨?_, ?_, ?_⟩
  · intro signOk rc pk now c
    rcases hb : c.connectionError with _ | _
    · simp [heartbeatTick, hb]
    · cases rc <;> simp [heartbeatTick, hb]
  · intro signOk rc pk now c hb
    simp [heartbeatTick, hb]
  · intro env pk c msgs resp h
    exact runLoop_published_shape env pk msgs c resp h

/-- Witness for `heartbeatNeverPublishes` at a concrete healthy tick. -/
theorem heartbeatNeverPublishesWitness :
    (heartbeatTick true none "pk" 5 ⟨0, false⟩).published = [] ∧
    (heartbeatTick true none "pk" 5 ⟨0, false⟩).constructedPing =
      some ⟨"", "pk", 5, 1, [["client", "bandita-dvm-heartbeat"]], ""⟩ :=
  ⟨heartbeatNeverPublishes.1 true none "pk" 5 ⟨0, false⟩,
   (heartbeatNeverPublishes.2.1 true none "pk" 5 ⟨0, false⟩ rfl).1⟩

/-- Claim C1 is false of the code: the concrete kind-1 event `evB` from
the expected responder references request `"reqB"`, not the
outstanding request `"reqA"`, yet `RequestTweet`'s wait accepts it
through the fallback branch and returns its payload as the result. -/
theorem foreignResponseAccepted :
    evB.kind = 1 ∧ evB.pubkey = "dvmpk" ∧
    hasMatchingETag "reqA" evB = false ∧
    hasMatchingETag "reqB" evB = true ∧
    waitForResponse decodeDemo "dvmpk" "reqA" [evB] =
      some ⟨"halfin", "Running bitcoin"⟩ :=
  ⟨rfl, rfl, by decide, by decide, by decide⟩

/-- Claim C1 as amended: a kind-1 event from the expected responder
none of whose tags reference request A never satisfies A's wait
through the tag-correlation rule; under the deliberate fallback
leniency it is accepted — and its payload returned — exactly when the
payload decodes into a result with non-empty text, and it is skipped
(the wait continues) when the payload fails to decode or has empty
text. -/
theorem foreignResponseFallback (decode : String → Option Tweet) (dvm reqA : String)
    (e : NEvent) (rest : List NEvent) (hk : e.kind = 1) (hp : e.pubkey = dvm)
    (ht : hasMatchingETag reqA e = false) :
    waitForResponse decode dvm reqA (e :: rest) =
      match decode e.content with
      | none => waitForResponse decode dvm reqA rest
      | some t => if t.text == "" then waitForResponse decode dvm reqA rest
                  else some t := by
  cases hd : decode e.content with
  | none => simp [waitForResponse, processEvent, isOurResponse, hk, hp, ht, hd]
  | some t =>
    rcases hxt : t.text == "" with _ | _
    · simp [waitForResponse, processEvent, isOurResponse, hk, hp, ht, hd, hxt]
    · simp [waitForResponse, processEvent, isOurResponse, hk, hp, ht, hd, hxt]

/-- Witness for `foreignResponseFallback`: an untagged empty-text event
from the responder does not end the wait. -/
theorem foreignResponseFallbackWitness :
    waitForResponse decodeDemo "dvmpk" "reqA" [evEmpty] = none := by
  have h := foreignResponseFallback decodeDemo "dvmpk" "reqA" evEmpty [] rfl rfl
    (by decide)
  rw [h]
  decide

/-- Claim C2: when no delivered event carries an `e` tag matching the
outstanding request, `RequestTweet` returns the decoded payload of the
first kind-1 event from the expected responder that decodes with
non-empty text; every event that fails to decode or decodes with empty
text is skipped without error and the wait continues. -/
theorem fallbackAcceptsFirstWellFormed (decode : String → Option Tweet)
    (dvm reqID : String) (events : List NEvent)
    (h : ∀ e ∈ events, hasMatchingETag reqID e = false) :
    waitForResponse decode dvm reqID events =
      match events.find? (acceptsFallback decode dvm) with
      | none => none
      | some e => decode e.content := by
  induction events with
  | nil => rfl
  | cons e rest ih =>
    have he : hasMatchingETag reqID e = false := h e (List.mem_cons_self e rest)
    have hrest : ∀ x ∈ rest, hasMatchingETag reqID x = false :=
      fun x hx => h x (List.mem_cons_of_mem e hx)
    have skip : processEvent decode dvm reqID e = WaitStep.keepWaiting →
        acceptsFallback decode dvm e = false →
        waitForResponse decode dvm reqID (e :: rest) =
          match (e :: rest).find? (acceptsFallback decode dvm) with
          | none => none
          | some x => decode x.content := by
      intro st hacc
      rw [show waitForResponse decode dvm reqID (e :: rest) =
            waitForResponse decode dvm reqID rest by
          simp only [waitForResponse, st],
        List.find?_cons_of_neg _ (by simp [hacc])]
      exact ih hrest
    rcases hk : e.kind == 1 with _ | _
    · exact skip (by simp [processEvent, hk]) (by simp [acceptsFallback, hk])
    · rcases hpk : e.pubkey == dvm with _ | _
      · exact skip (by simp [processEvent, isOurResponse, hk, hpk, he])
          (by simp [acceptsFallback, hk, hpk])
      · cases hd : decode e.content with
        | none =>
          exact skip (by simp [processEvent, isOurResponse, hk, hpk, he, hd])
            (by simp [acceptsFallback, hk, hpk, hd])
        | some t =>
          rcases hxt : t.text == "" with _ | _
          · have hacc : acceptsFallback decode dvm e = true := by
              simp [acceptsFallback, hk, hpk, hd, hxt]
            rw [show waitForResponse decode dvm reqID (e :: rest) = some t by
                simp [waitForResponse, processEvent, isOurResponse, hk, hpk, he, hd, hxt],
              List.find?_cons_of_pos _ (by simp [hacc])]
            exact hd.symm
          · exact skip (by simp [processEvent, isOurResponse, hk, hpk, he, hd, hxt])
              (by simp [acceptsFallback, hk, hpk, hd, hxt])

/-- Witness for `fallbackAcceptsFirstWellFormed`: with no tagged event
present, a failed decode and an empty-text payload are skipped and the
next well-formed event's payload is returned. -/
theorem fallbackFirstWellFormedWitness :
    waitForResponse decodeDemo "dvmpk" "reqA" [evBad, evEmpty, evGood] =
      some ⟨"halfin", "Running bitcoin"⟩ := by
  have h := fallbackAcceptsFirstWellFormed decodeDemo "dvmpk" "reqA"
    [evBad, evEmpty, evGood] (by decide)
  rw [h]
  decide

/-- Claim C5: when the fetch collaborator fails for a received
kind-42069 job request, the responder publishes nothing for it, calls
the fetch exactly once (no retry), and its loop continues with the
remaining messages exactly as if the event had not arrived — `Run`
neither crashes nor returns. -/
theorem dropJobOnFetchFailure (env : DvmEnv) (dvmPk : String) (c : Conn)
    (evt : NEvent) (rest : List LoopMsg) (hk : evt.kind = 42069)
    (hf : env.fetch evt.content = none) :
    (handleEvent env dvmPk c evt).published = [] ∧
    (handleEvent env dvmPk c evt).fetchCalls = 1 ∧
    runLoop env dvmPk c (LoopMsg.ev evt :: rest) = runLoop env dvmPk c rest := by
  have h : handleEvent env dvmPk c evt = ⟨1, [], [], c⟩ := by
    simp [handleEvent, hk, hf]
  refine ⟨by rw [h], by rw [h], ?_⟩
  simp only [runLoop, h]
  simp

/-- Witness for `dropJobOnFetchFailure` at a concrete failing fetch. -/
theorem dropJobWitness :
    (handleEvent dvmEnvFail "dvmpk" ⟨0, false⟩ reqEvtW).published = [] ∧
    (handleEvent dvmEnvFail "dvmpk" ⟨0, false⟩ reqEvtW).fetchCalls = 1 :=
  ⟨(dropJobOnFetchFailure dvmEnvFail "dvmpk" ⟨0, false⟩ reqEvtW [] rfl rfl).1,
   (dropJobOnFetchFailure dvmEnvFail "dvmpk" ⟨0, false⟩ reqEvtW [] rfl rfl).2.1⟩

/-! ### Helper lemmas about the requester -/

theorem retryAux_no_subscribe (reconnect : Nat → Option Conn) (pubOk : Nat → Bool) :
    ∀ rem c i err,
      (publishRetryAux reconnect pubOk c i rem err).acts.filter Act.isSubscribe = [] := by
  intro rem
  induction rem with
  | zero => intro c i err; simp [publishRetryAux]
  | succ k ih =>
    intro c i err
    rcases hb : c.connectionError with _ | _
    · rcases hp : pubOk i with _ | _
      · simpa [publishRetryAux, hb, hp, Act.isSubscribe]
          using ih c (i + 1) (some (.publishErr i))
      · simp [publishRetryAux, hb, hp, Act.isSubscribe]
    · rcases hr : reconnect i with _ | c2
      · simpa [publishRetryAux, hb, hr, Act.isSubscribe]
          using ih c (i + 1) (some (.reconnectErr i))
      · rcases hp : pubOk i with _ | _
        · simpa [publishRetryAux, hb, hr, hp, Act.isSubscribe]
            using ih c2 (i + 1) (some (.publishErr i))
        · simp [publishRetryAux, hb, hr, hp, Act.isSubscribe]

theorem retryAux_broken_head (reconnect : Nat → Option Conn) (pubOk : Nat → Bool)
    (rem : Nat) (c : Conn) (i : Nat) (err : Option PubErr)
    (hb : c.connectionError = true) :
    ∃ b rest, (publishRetryAux reconnect pubOk c i (rem + 1) err).acts =
      Act.reconnectTry i b :: rest := by
  rcases hr : reconnect i with _ | c2
  · exact ⟨false,
      Act.sleepAct retrySleepMs ::
        (publishRetryAux reconnect pubOk c (i + 1) rem (some (.reconnectErr i))).acts,
      by simp [publishRetryAux, hb, hr]⟩
  · rcases hp : pubOk i with _ | _
    · exact ⟨true,
        Act.publishAttempt c2.id :: Act.sleepAct retrySleepMs ::
          (publishRetryAux reconnect pubOk c2 (i + 1) rem (some (.publishErr i))).acts,
        by simp [publishRetryAux, hb, hr, hp]⟩
    · exact ⟨true, [Act.publishAttempt c2.id], by simp [publishRetryAux, hb, hr, hp]⟩

theorem requestTweet_acts (env : ClientEnv) (cpk dpk tid : String) (c0 : Conn)
    (hsg : env.signOk = true) (hsub : env.subscribeOk = true) :
    (requestTweet env cpk dpk tid c0).acts =
      Act.subscribeAct c0.id :: (publishWithRetry env.reconnect env.pubOk c0).acts := by
  simp only [requestTweet, hsg, hsub]
  cases hle : (publishWithRetry env.reconnect env.pubOk c0).lastErr with
  | some e => simp
  | none =>
    cases hw : waitForResponse env.decode dpk env.reqId env.events with
    | some t => simp [hw]
    | none => simp [hw]

theorem requestTweet_sub (env : ClientEnv) (cpk dpk tid : String) (c0 : Conn)
    (hsg : env.signOk = true) (hsub : env.subscribeOk = true) :
    (requestTweet env cpk dpk tid c0).sub =
      some ⟨c0.id, [1], [dpk], env.now - clientSinceSlackSecs⟩ := by
  simp only [requestTweet, hsg, hsub]
  cases hle : (publishWithRetry env.reconnect env.pubOk c0).lastErr with
  | some e => simp
  | none =>
    cases hw : waitForResponse env.decode dpk env.reqId env.events with
    | some t => simp [hw]
    | none => simp [hw]

theorem requestTweet_sub_cases (env : ClientEnv) (cpk dpk tid : String) (c0 : Conn) :
    (requestTweet env cpk dpk tid c0).sub = none ∨
    (requestTweet env cpk dpk tid c0).sub =
      some ⟨c0.id, [1], [dpk], env.now - clientSinceSlackSecs⟩ := by
  by_cases hsg : env.signOk = true
  · by_cases hsub : env.subscribeOk = true
    · right; exact requestTweet_sub env cpk dpk tid c0 hsg hsub
    · left; simp [requestTweet, hsg, hsub]
  · left; simp [requestTweet, hsg]

theorem requestTweet_acts_cases (env : ClientEnv) (cpk dpk tid : String) (c0 : Conn) :
    (requestTweet env cpk dpk tid c0).acts = [] ∨
    (requestTweet env cpk dpk tid c0).acts = [Act.subscribeAct c0.id] ∨
    (requestTweet env cpk dpk tid c0).acts =
      Act.subscribeAct c0.id :: (publishWithRetry env.reconnect env.pubOk c0).acts := by
  by_cases hsg : env.signOk = true
  · by_cases hsub : env.subscribeOk = true
    · right; right; exact requestTweet_acts env cpk dpk tid c0 hsg hsub
    · right; left; simp [requestTweet, hsg, hsub]
  · left; simp [requestTweet, hsg]

/-- Claim C4: on both publish paths, attempts are capped at
`maxRetries = 3` with a fixed `retrySleepMs = 500` ms sleep between
failed attempts; a broken connection triggers a reconnect before the
retry; on exhaustion the responder's loop continues (its return status
is unaffected by event handling), while the requester surfaces the
transport error as its result. -/
theorem publishRetryPolicy :
    maxRetries = 3 ∧ retrySleepMs = 500 ∧
    (∀ reconnect pubOk c,
      (publishWithRetry reconnect pubOk c).attemptsUsed ≤ maxRetries) ∧
    (∀ reconnect pubOk c s, s ∈ (publishWithRetry reconnect pubOk c).sleeps →
      s = retrySleepMs) ∧
    (∀ reconnect pubOk c, c.connectionError = true →
      ∃ b rest, (publishWithRetry reconnect pubOk c).acts =
        Act.reconnectTry 0 b :: rest) ∧
    (∀ env pk c e rest,
      (runLoop env pk c (LoopMsg.ev e :: rest)).returned =
        (runLoop env pk ((handleEvent env pk c e).conn) rest).returned) ∧
    (∀ env cpk dpk tid c0, env.signOk = true → env.subscribeOk = true →
      (publishWithRetry env.reconnect env.pubOk c0).success = false →
      ∃ er, (requestTweet env cpk dpk tid c0).result = ReqResult.errPublish er) := by
  refine ⟨rfl, rfl, ?_, ?_, ?_, ?_, ?_⟩
  · intro rc p c; exact retryAux_attempts_le rc p maxRetries c 0 none
  · intro rc p c s hs; exact retryAux_sleeps rc p maxRetries c 0 none s hs
  · intro rc p c hb; exact retryAux_broken_head rc p 2 c 0 none hb
  · intro env pk c e rest; simp [runLoop]
  · intro env cpk dpk tid c0 hsg hsub hf
    obtain ⟨er, her⟩ := publishWithRetry_fail_err env.reconnect env.pubOk c0 hf
    refine ⟨er, ?_⟩
    simp [requestTweet, hsg, hsub, her]

/-- Witness for `publishRetryPolicy`: with every publish failing, the
retry budget is respected and the requester returns the transport
error of the third (last) attempt. -/
theorem publishRetryPolicyWitness :
    (publishWithRetry cenvFail.reconnect cenvFail.pubOk ⟨0, false⟩).attemptsUsed ≤
      maxRetries ∧
    (publishWithRetry cenvFail.reconnect cenvFail.pubOk ⟨0, false⟩).sleeps =
      [retrySleepMs, retrySleepMs, retrySleepMs] ∧
    (requestTweet cenvFail "clientpk" "dvmpk" "1110302988" ⟨0, false⟩).result =
      ReqResult.errPublish (PubErr.publishErr 2) :=
  ⟨publishRetryPolicy.2.2.1 cenvFail.reconnect cenvFail.pubOk ⟨0, false⟩,
   by decide, by decide⟩

/-- Claim C6: when signing succeeds, `RequestTweet`'s transport trace
begins with the subscription on the initial connection, so the
subscription is established strictly before any publish attempt; a
subscription failure returns `errSubscribe` with no publish attempt
ever made; and the subscription's lower time bound is one minute
(60 s) before the current time, hence strictly earlier than the
request's own timestamp. -/
theorem subscribeBeforePublish :
    (∀ env cpk dpk tid c0, env.signOk = true →
      ∃ rest, (requestTweet env cpk dpk tid c0).acts =
        Act.subscribeAct c0.id :: rest) ∧
    (∀ env cpk dpk tid c0, env.signOk = true → env.subscribeOk = false →
      (requestTweet env cpk dpk tid c0).result = ReqResult.errSubscribe ∧
      ∀ a ∈ (requestTweet env cpk dpk tid c0).acts, a.isPublish = false) ∧
    (∀ env cpk dpk tid c0 s, (requestTweet env cpk dpk tid c0).sub = some s →
      s.since = env.now - clientSinceSlackSecs ∧ clientSinceSlackSecs = 60 ∧
      s.since < env.now ∧ s.kinds = [1] ∧ s.authors = [dpk]) := by
  refine ⟨?_, ?_, ?_⟩
  · intro env cpk dpk tid c0 hsg
    by_cases hsub : env.subscribeOk = true
    · exact ⟨_, requestTweet_acts env cpk dpk tid c0 hsg hsub⟩
    · exact ⟨[], by simp [requestTweet, hsg, hsub]⟩
  · intro env cpk dpk tid c0 hsg hsub
    have h : requestTweet env cpk dpk tid c0 =
        ⟨some ⟨env.reqId, cpk, env.now, 42069, [], tid⟩, none, c0,
          [Act.subscribeAct c0.id], ReqResult.errSubscribe⟩ := by
      simp [requestTweet, hsg, hsub]
    rw [h]
    exact ⟨rfl, by intro a ha; simp at ha; rw [ha]; rfl⟩
  · intro env cpk dpk tid c0 s hs
    rcases requestTweet_sub_cases env cpk dpk tid c0 with h | h
    · rw [h] at hs; cases hs
    · rw [h] at hs
      obtain rfl := Option.some.inj hs
      refine ⟨rfl, rfl, ?_, rfl, rfl⟩
      exact sub_lt_self env.now (by norm_num [clientSinceSlackSecs])

/-- Witness for `subscribeBeforePublish`: in the all-success demo
environment the trace starts with the subscription on connection 0 and
the subscription's lower bound is 60 s before `now = 100`. -/
theorem subscribeBeforePublishWitness :
    ((⟨0, [1], ["dvmpk"], 40⟩ : Subscription).since =
        cenvW.now - clientSinceSlackSecs ∧
      clientSinceSlackSecs = 60 ∧
      (⟨0, [1], ["dvmpk"], 40⟩ : Subscription).since < cenvW.now ∧
      (⟨0, [1], ["dvmpk"], 40⟩ : Subscription).kinds = [1] ∧
      (⟨0, [1], ["dvmpk"], 40⟩ : Subscription).authors = ["dvmpk"]) ∧
    (requestTweet cenvW "clientpk" "dvmpk" "42" ⟨0, false⟩).acts.head? =
      some (Act.subscribeAct 0) :=
  ⟨subscribeBeforePublish.2.2 cenvW "clientpk" "dvmpk" "42" ⟨0, false⟩
    ⟨0, [1], ["dvmpk"], 40⟩ (by decide), by decide⟩

/-- Claim C8 (implicit behavior, confirmed): whatever reconnects the
publish-retry path performs, the subscription the wait loop consumes
is the one opened on the client's original connection — its recorded
connection is `c0`'s, and the trace never contains a second
subscription. -/
theorem staleSubscriptionAfterReconnect :
    (∀ env cpk dpk tid c0 s, (requestTweet env cpk dpk tid c0).sub = some s →
      s.connId = c0.id) ∧
    (∀ env cpk dpk tid c0,
      ((requestTweet env cpk dpk tid c0).acts.filter Act.isSubscribe).length ≤ 1) := by
  constructor
  · intro env cpk dpk tid c0 s hs
    rcases requestTweet_sub_cases env cpk dpk tid c0 with h | h
    · rw [h] at hs; cases hs
    · rw [h] at hs
      obtain rfl := Option.some.inj hs
      rfl
  · intro env cpk dpk tid c0
    rcases requestTweet_acts_cases env cpk dpk tid c0 with h | h | h
    · rw [h]; simp
    · rw [h]; simp [Act.isSubscribe]
    · have hn : (publishWithRetry env.reconnect env.pubOk c0).acts.filter
          Act.isSubscribe = [] :=
        retryAux_no_subscribe env.reconnect env.pubOk maxRetries c0 0 none
      rw [h]
      simp [List.filter_cons, Act.isSubscribe, hn]

/-- Witness for `staleSubscriptionAfterReconnect`: after the retry path
reconnects (final connection 1), the subscription still records the
original connection 0. -/
theorem staleSubscriptionWitness :
    (requestTweet cenvReconn "clientpk" "dvmpk" "42" ⟨0, true⟩).conn.id = 1 ∧
    (requestTweet cenvReconn "clientpk" "dvmpk" "42" ⟨0, true⟩).sub =
      some ⟨0, [1], ["dvmpk"], 40⟩ ∧
    (⟨0, [1], ["dvmpk"], 40⟩ : Subscription).connId = (⟨0, true⟩ : Conn).id :=
  ⟨by decide, by decide,
   staleSubscriptionAfterReconnect.1 cenvReconn "clientpk" "dvmpk" "42" ⟨0, true⟩
     ⟨0, [1], ["dvmpk"], 40⟩ (by decide)⟩

end Bandita
